import Mathlib

/-!
Verification of the Crypto-Trading-Bot repository (`bot.py`, `trader.py`).

The embedding models:
* `pyFloat` — Python's `float(...)` applied to plain decimal literals
  (optional sign, integer part, optional fractional part), returning `none`
  where `float()` raises `ValueError`; numeric values are rationals.
* `validate_input` — `bot.py:validate_input`, returning the distinct
  logged rejection (as a `ValidationError`) or the validated tuple together
  with the list of warnings it logged.
* `placeOrderParams` / `place_order` — `trader.py:BasicBot.place_order`:
  the request-parameter dictionary (an ordered key/value list) and the
  observable outcome (returned value plus lines printed to stdout) as a
  function of the exchange's behaviour.
* `main_run` — `bot.py:main`, as a function from an environment
  (credentials, connectivity-check outcome, argv, exchange behaviour) to
  the process exit code and an execution trace (number of connectivity
  checks, whether validation ran, number of order-placement calls).
-/

deriving instance DecidableEq for Except

/-- Value of one digit character. -/
def digitVal (c : Char) : Nat := c.toNat - 48

/-- Natural number denoted by a digit list (most significant first). -/
def digitsToNat (l : List Char) : Nat := l.foldl (fun n c => 10 * n + digitVal c) 0

/-- Models Python `float(s)` on plain decimal literals: optional sign, then
digits with at most one decimal point (at least one digit overall).
Returns `none` where `float()` raises `ValueError`. Exponent/`inf`/`nan`
forms are outside the model. -/
def pyFloat (s : String) : Option ℚ :=
  let l := s.data
  let signBody : Bool × List Char :=
    match l with
    | '-' :: t => (true, t)
    | '+' :: t => (false, t)
    | t => (false, t)
  let neg := signBody.1
  let body := signBody.2
  let ip := body.takeWhile (fun c => c ≠ '.')
  let rest := body.dropWhile (fun c => c ≠ '.')
  let mag : Option ℚ :=
    match rest with
    | [] => if !ip.isEmpty && ip.all Char.isDigit then some (digitsToNat ip : ℚ) else none
    | _ :: frac =>
      if frac.contains '.' then none
      else if (ip.all Char.isDigit) && (frac.all Char.isDigit) && !(ip.isEmpty && frac.isEmpty) then
        some ((digitsToNat ip : ℚ) + (digitsToNat frac : ℚ) / ((10 : ℚ) ^ frac.length))
      else none
  mag.map (fun q => if neg then -q else q)

/-- Python `s.upper()`: uppercase every character (ASCII case map). -/
def pyUpper (s : String) : String := ⟨s.data.map Char.toUpper⟩

/-- The expression `symbol.upper().replace("/", "")` from `bot.py:validate_input`:
uppercase every character, then remove every `/`. -/
def normalizeSymbol (symbol : String) : String :=
  ⟨(symbol.data.map Char.toUpper).filter (fun c => c ≠ '/')⟩

/-- The distinct rejections `validate_input` logs before returning `None`. -/
inductive ValidationError where
  | invalidQuantity (quantity : String)
  | missingPrice (orderType : String)
  | invalidPrice (price : String)
  | missingStopPrice
  | invalidStopPrice (stopPrice : String)
  deriving DecidableEq, Repr

/-- The validated tuple returned by `bot.py:validate_input` on success. -/
structure OrderRequest where
  symbol : String
  side : String
  otype : String
  quantity : ℚ
  price : Option ℚ
  stopPrice : Option ℚ
  deriving DecidableEq, Repr

/-- Quantity check, `bot.py` lines 27–33: must parse and be `> 0`. -/
def checkQuantity (quantity : String) : Except ValidationError ℚ :=
  match pyFloat quantity with
  | none => .error (.invalidQuantity quantity)
  | some q => if q ≤ 0 then .error (.invalidQuantity quantity) else .ok q

/-- Price check, `bot.py` lines 35–46: required (and `> 0`) for LIMIT and
STOP_LIMIT, otherwise left as `None`. -/
def checkPrice (order_type_upper : String) (price : Option String) :
    Except ValidationError (Option ℚ) :=
  if order_type_upper = "LIMIT" ∨ order_type_upper = "STOP_LIMIT" then
    match price with
    | none => .error (.missingPrice order_type_upper)
    | some ps =>
      match pyFloat ps with
      | none => .error (.invalidPrice ps)
      | some p => if p ≤ 0 then .error (.invalidPrice ps) else .ok (some p)
  else .ok none

/-- Stop-price check, `bot.py` lines 48–63: required (and `> 0`) for
STOP_LIMIT; emits the immediate-trigger warning but never rejects on the
cross-field comparison. Returns the stop price and the warnings logged. -/
def checkStop (side_upper order_type_upper : String) (p : Option ℚ)
    (stop_price : Option String) : Except ValidationError (Option ℚ × List String) :=
  if order_type_upper = "STOP_LIMIT" then
    match stop_price with
    | none => .error .missingStopPrice
    | some sps =>
      match pyFloat sps with
      | none => .error (.invalidStopPrice sps)
      | some sp =>
        if sp ≤ 0 then .error (.invalidStopPrice sps)
        else
          let warns : List String :=
            match p with
            | some pv =>
              if sp > pv ∧ side_upper = "SELL" then
                ["Stop Price > Limit Price for a SELL order (may trigger immediately)."]
              else if sp < pv ∧ side_upper = "BUY" then
                ["Stop Price < Limit Price for a BUY order (may trigger immediately)."]
              else []
            | none => []
          .ok (some sp, warns)
  else .ok (none, [])

/-- Model of `bot.py:validate_input`: quantity, then price, then stop-price; the
first failing check wins. On success returns the request tuple (with the
normalized symbol and upper-cased side/type) and the warnings logged. -/
def validate_input (symbol side order_type quantity : String)
    (price : Option String) (stop_price : Option String) :
    Except ValidationError (OrderRequest × List String) :=
  let side_upper := pyUpper side
  let order_type_upper := pyUpper order_type
  match checkQuantity quantity with
  | .error e => .error e
  | .ok q =>
    match checkPrice order_type_upper price with
    | .error e => .error e
    | .ok p =>
      match checkStop side_upper order_type_upper p stop_price with
      | .error e => .error e
      | .ok (sp, warns) =>
        .ok (⟨normalizeSymbol symbol, side_upper, order_type_upper, q, p, sp⟩, warns)

/-- A value stored in the request/response dictionaries: a string, a
number, or Python `None`. -/
inductive PVal where
  | str (s : String)
  | num (q : ℚ)
  | null
  deriving DecidableEq, Repr

/-- Python truthiness of an `Optional[float]`: `None` and `0.0` are falsy. -/
def truthy : Option ℚ → Bool
  | none => false
  | some x => x ≠ 0

/-- Numeric dictionary value from an `Optional[float]` (`None` maps to
Python `None`). -/
def pnum : Option ℚ → PVal
  | none => .null
  | some x => .num x

/-- String dictionary value from an `Optional[str]`. -/
def pstr : Option String → PVal
  | none => .null
  | some s => .str s

/-- The `params` dictionary built by `trader.py:BasicBot.place_order`
(lines 78–92), as an ordered key/value list: the base set
`{symbol, side, type, quantity}`, extended for `LIMIT` when a price is
given, and for `STOP_LIMIT` when both price and stop price are truthy. -/
def placeOrderParams (symbol side order_type : String) (quantity : ℚ)
    (price : Option ℚ) (time_in_force : Option String) (stop_price : Option ℚ) :
    List (String × PVal) :=
  let params := [("symbol", PVal.str symbol), ("side", PVal.str side),
    ("type", PVal.str order_type), ("quantity", PVal.num quantity)]
  let params := if order_type = "LIMIT" ∧ price.isSome then
      params ++ [("price", pnum price), ("timeInForce", pstr time_in_force)]
    else params
  let params := if order_type = "STOP_LIMIT" ∧ truthy price ∧ truthy stop_price then
      params ++ [("price", pnum price), ("stopPrice", pnum stop_price),
        ("timeInForce", pstr time_in_force)]
    else params
  params

/-- What the exchange's `futures_create_order` does on a given call:
return a response dictionary, raise a structured `BinanceAPIException`
(code and message), or raise any other exception (network/unexpected). -/
inductive ExchangeBehavior where
  | success (resp : List (String × PVal))
  | apiError (code : Int) (message : String)
  | transportError (message : String)
  deriving DecidableEq, Repr

/-- Observable outcome of `BasicBot.place_order`: the parameters sent,
the returned value (`None` on any failure), and the lines printed to
stdout. -/
structure PlaceResult where
  params : List (String × PVal)
  retval : Option (List (String × PVal))
  printed : List String
  deriving DecidableEq, Repr

/-- Model of `trader.py:BasicBot.place_order` (lines 64–111): builds the request
parameters, then returns the exchange response, or prints the
API-error marker with the code and message and returns `None`, or prints
the generic marker and returns `None`. -/
def place_order (symbol side order_type : String) (quantity : ℚ)
    (price : Option ℚ) (time_in_force : Option String) (stop_price : Option ℚ)
    (exchange : ExchangeBehavior) : PlaceResult :=
  let params := placeOrderParams symbol side order_type quantity price time_in_force stop_price
  match exchange with
  | .success resp => ⟨params, some resp, []⟩
  | .apiError code message =>
    ⟨params, none, ["FAILED (API Error): Code " ++ toString code ++ " | " ++ message]⟩
  | .transportError message =>
    ⟨params, none, ["FAILED (Unknown Error): " ++ message]⟩

/-- Model of `BasicBot.place_market_order`. -/
def place_market_order (symbol side : String) (quantity : ℚ)
    (exchange : ExchangeBehavior) : PlaceResult :=
  place_order symbol side "MARKET" quantity none (some "GTC") none exchange

/-- Model of `BasicBot.place_limit_order` (the price `main` passes is the
`Optional[float]` from validation). -/
def place_limit_order (symbol side : String) (quantity : ℚ) (price : Option ℚ)
    (exchange : ExchangeBehavior) : PlaceResult :=
  place_order symbol side "LIMIT" quantity price (some "GTC") none exchange

/-- Model of `BasicBot.place_stop_limit_order`. -/
def place_stop_limit_order (symbol side : String) (quantity : ℚ)
    (price : Option ℚ) (stop_price : Option ℚ) (exchange : ExchangeBehavior) : PlaceResult :=
  place_order symbol side "STOP_LIMIT" quantity price (some "GTC") stop_price exchange

/-- Python truthiness of an optional string: `None` and `""` are falsy
(`if not api_key or not api_secret`). -/
def pystrTruthy : Option String → Bool
  | none => false
  | some s => !s.isEmpty

/-- Dictionary lookup `d.get(k, default)` on the ordered-dictionary model. -/
def dictGet (d : List (String × PVal)) (k : String) (dflt : PVal) : PVal :=
  match d.find? (fun kv => kv.1 = k) with
  | some kv => kv.2
  | none => dflt

/-- Rendering of a dictionary value in an f-string. -/
def pvalText : PVal → String
  | .str s => s
  | .num q => toString q
  | .null => "None"

/-- The positional and optional command-line arguments of `bot.py`. -/
structure Args where
  symbol : String
  side : String
  order_type : String
  quantity : String
  price : Option String
  stop_price : Option String
  deriving DecidableEq, Repr

/-- The environment `bot.py:main` runs in: the two credentials from the
environment (`none` = unset), whether the connectivity check made at
`BasicBot` construction succeeds, whether the command line is empty
(`len(sys.argv) == 1`), the parsed arguments otherwise, and the
exchange's behaviour on an order-creation call. -/
structure Env where
  api_key : Option String
  api_secret : Option String
  init_ok : Bool
  no_args : Bool
  args : Args
  exchange : ExchangeBehavior

/-- Observable result of one run of `bot.py:main`: the process exit code,
how many connectivity checks were made, whether `validate_input` ran,
how many order-placement calls reached the client, and the printed
`STATUS:` line when the run completed. -/
structure MainResult where
  exitCode : Nat
  connectivityChecks : Nat
  validationRan : Bool
  orderCalls : Nat
  statusLine : Option String
  deriving DecidableEq, Repr

/-- Model of `bot.py:main` (lines 75–178): credentials check, `BasicBot`
construction (whose constructor performs its single connectivity check),
empty-command-line check, `argparse` choices enforcement (exit code 2 on an
invalid choice), validation, then dispatch to the order-placement helper
of the validated type; the exit code of a completed run is 0 whatever the
exchange answered. -/
def main_run (env : Env) : MainResult :=
  if ¬ pystrTruthy env.api_key ∨ ¬ pystrTruthy env.api_secret then
    ⟨1, 0, false, 0, none⟩
  else if ¬ env.init_ok then
    ⟨1, 1, false, 0, none⟩
  else if env.no_args then
    ⟨1, 1, false, 0, none⟩
  else if ¬ (env.args.side = "BUY" ∨ env.args.side = "SELL") ∨
      ¬ (env.args.order_type = "MARKET" ∨ env.args.order_type = "LIMIT" ∨
        env.args.order_type = "STOP_LIMIT") then
    ⟨2, 1, false, 0, none⟩
  else
    match validate_input env.args.symbol env.args.side env.args.order_type
        env.args.quantity env.args.price env.args.stop_price with
    | .error _ => ⟨1, 1, true, 0, none⟩
    | .ok (r, _) =>
      let result : Option PlaceResult :=
        if r.otype = "MARKET" then
          some (place_market_order r.symbol r.side r.quantity env.exchange)
        else if r.otype = "LIMIT" then
          some (place_limit_order r.symbol r.side r.quantity r.price env.exchange)
        else if r.otype = "STOP_LIMIT" then
          some (place_stop_limit_order r.symbol r.side r.quantity r.price r.stopPrice
            env.exchange)
        else none
      let order_result : Option (List (String × PVal)) :=
        match result with
        | some pr => pr.retval
        | none => none
      let statusLine :=
        match order_result with
        | some resp =>
          if resp.isEmpty then "STATUS: FAILED (Check log file for detailed error message)"
          else "STATUS: " ++ pvalText (dictGet resp "status" (.str "N/A"))
        | none => "STATUS: FAILED (Check log file for detailed error message)"
      ⟨0, 1, true, if result.isSome then 1 else 0, some statusLine⟩

/-- A Python float value as the validator's comparisons see it: a rational
number or NaN. `float("nan")` parses successfully in Python and every
ordered comparison against NaN is False. -/
inductive PyNum where
  | num (q : ℚ)
  | nan
  deriving DecidableEq, Repr

/-- Python `x <= 0` on a parsed float value: False for NaN, which is how
`"nan"` slips through the positivity checks of `bot.py`. -/
def pyLeZero : PyNum → Bool
  | .num q => q ≤ 0
  | .nan => false

/-- Python `x < y` on parsed float values: False when either side is NaN. -/
def pyLt : PyNum → PyNum → Bool
  | .num x, .num y => x < y
  | _, _ => false

/-- A parsed float value that is a strictly positive number; NaN is not. -/
def pyPos : PyNum → Prop
  | .num q => 0 < q
  | .nan => False

/-- Refinement of `pyFloat` that also accepts Python's `"nan"` literal
(optional sign, any letter case) — the accepted form that defeats the
positivity checks; `inf` and exponent forms remain out of scope. -/
def pyFloatNan (s : String) : Option PyNum :=
  let body : List Char :=
    match s.data with
    | '-' :: t => t
    | '+' :: t => t
    | t => t
  if body.map Char.toLower = ['n', 'a', 'n'] then some PyNum.nan
  else (pyFloat s).map PyNum.num

/-- Quantity check of `bot.py` lines 27–33 over the NaN-aware value model. -/
def checkQuantityNan (quantity : String) : Except ValidationError PyNum :=
  match pyFloatNan quantity with
  | none => .error (.invalidQuantity quantity)
  | some q => if pyLeZero q then .error (.invalidQuantity quantity) else .ok q

/-- Price check of `bot.py` lines 35–46 over the NaN-aware value model. -/
def checkPriceNan (order_type_upper : String) (price : Option String) :
    Except ValidationError (Option PyNum) :=
  if order_type_upper = "LIMIT" ∨ order_type_upper = "STOP_LIMIT" then
    match price with
    | none => .error (.missingPrice order_type_upper)
    | some ps =>
      match pyFloatNan ps with
      | none => .error (.invalidPrice ps)
      | some p => if pyLeZero p then .error (.invalidPrice ps) else .ok (some p)
  else .ok none

/-- Stop-price check of `bot.py` lines 48–63 over the NaN-aware value
model; the warning comparisons `sp > p` / `sp < p` are False when either
value is NaN, as in Python. -/
def checkStopNan (side_upper order_type_upper : String) (p : Option PyNum)
    (stop_price : Option String) : Except ValidationError (Option PyNum × List String) :=
  if order_type_upper = "STOP_LIMIT" then
    match stop_price with
    | none => .error .missingStopPrice
    | some sps =>
      match pyFloatNan sps with
      | none => .error (.invalidStopPrice sps)
      | some sp =>
        if pyLeZero sp then .error (.invalidStopPrice sps)
        else
          let warns : List String :=
            match p with
            | some pv =>
              if pyLt pv sp ∧ side_upper = "SELL" then
                ["Stop Price > Limit Price for a SELL order (may trigger immediately)."]
              else if pyLt sp pv ∧ side_upper = "BUY" then
                ["Stop Price < Limit Price for a BUY order (may trigger immediately)."]
              else []
            | none => []
          .ok (some sp, warns)
  else .ok (none, [])

/-- The validated tuple of `bot.py:validate_input` over the NaN-aware
value model. -/
structure OrderRequestNan where
  symbol : String
  side : String
  otype : String
  quantity : PyNum
  price : Option PyNum
  stopPrice : Option PyNum
  deriving DecidableEq, Repr

/-- NaN-aware refinement of `validate_input` (`bot.py` lines 15–72): the
same control flow, with values that may be `float("nan")`. -/
def validate_input_nan (symbol side order_type quantity : String)
    (price : Option String) (stop_price : Option String) :
    Except ValidationError (OrderRequestNan × List String) :=
  let side_upper := pyUpper side
  let order_type_upper := pyUpper order_type
  match checkQuantityNan quantity with
  | .error e => .error e
  | .ok q =>
    match checkPriceNan order_type_upper price with
    | .error e => .error e
    | .ok p =>
      match checkStopNan side_upper order_type_upper p stop_price with
      | .error e => .error e
      | .ok (sp, warns) =>
        .ok (⟨normalizeSymbol symbol, side_upper, order_type_upper, q, p, sp⟩, warns)

example : pyFloat "0.01" = some (1 / 100) := by
  simp [pyFloat, digitsToNat, digitVal]; norm_num

lemma checkQuantity_error_of_none {quantity : String} (h : pyFloat quantity = none) :
    checkQuantity quantity = .error (.invalidQuantity quantity) := by
  simp [checkQuantity, h]

lemma checkQuantity_error_of_nonpos {quantity : String} {q : ℚ}
    (h : pyFloat quantity = some q) (hq : q ≤ 0) :
    checkQuantity quantity = .error (.invalidQuantity quantity) := by
  simp [checkQuantity, h, hq]

lemma checkQuantity_ok {quantity : String} {q : ℚ}
    (h : pyFloat quantity = some q) (hq : 0 < q) :
    checkQuantity quantity = .ok q := by
  simp [checkQuantity, h, not_le.mpr hq]

/-- Claim C2. If the quantity string does not parse as a number, or parses to a
value ≤ 0, `validate_input` returns the `InvalidQuantity` rejection whatever
the symbol, side, order type, price and stop price are: the quantity is
checked first and the first failure wins. -/
theorem validate_input_invalid_quantity
    (symbol side order_type quantity : String) (price stop_price : Option String)
    (h : pyFloat quantity = none ∨ ∃ q, pyFloat quantity = some q ∧ q ≤ 0) :
    validate_input symbol side order_type quantity price stop_price =
      .error (.invalidQuantity quantity) := by
  have hq : checkQuantity quantity = .error (.invalidQuantity quantity) := by
    rcases h with h | ⟨q, hq, hle⟩
    · exact checkQuantity_error_of_none h
    · exact checkQuantity_error_of_nonpos hq hle
  simp [validate_input, hq]

/-- Witness for C2: the non-numeric quantity `"abc"` is rejected as
`InvalidQuantity` even with nonsensical price fields present. -/
theorem validate_input_invalid_quantity_witness :
    validate_input "BTCUSDT" "BUY" "MARKET" "abc" (some "-5") (some "oops") =
      .error (.invalidQuantity "abc") :=
  validate_input_invalid_quantity "BTCUSDT" "BUY" "MARKET" "abc" (some "-5") (some "oops")
    (Or.inl (by decide))

/-- Claim C10. For an order type that upper-cases to `MARKET` and a valid
(positive, parseable) quantity, `validate_input` succeeds whatever the price
and stop-price arguments hold — they are never even examined — and the
returned request carries `price = None` and `stopPrice = None`, with no
warnings. -/
theorem validate_input_market_ignores_prices
    (symbol side order_type quantity : String) (price stop_price : Option String) (q : ℚ)
    (ht : pyUpper order_type = "MARKET")
    (hq : pyFloat quantity = some q) (hq0 : 0 < q) :
    validate_input symbol side order_type quantity price stop_price =
      .ok (⟨normalizeSymbol symbol, pyUpper side, "MARKET", q, none, none⟩, []) := by
  simp [validate_input, checkQuantity_ok hq hq0, ht, checkPrice, checkStop]

/-- Witness for C10: `"market"` with quantity `"0.01"` succeeds although the
price argument is non-numeric and the stop price is negative. -/
theorem validate_input_market_ignores_prices_witness :
    validate_input "btc/usdt" "buy" "market" "0.01" (some "junk") (some "-3") =
      .ok (⟨normalizeSymbol "btc/usdt", pyUpper "buy", "MARKET", 1 / 100, none, none⟩, []) :=
  validate_input_market_ignores_prices "btc/usdt" "buy" "market" "0.01"
    (some "junk") (some "-3") (1 / 100) (by decide)
    (by simp [pyFloat, digitsToNat, digitVal]; norm_num) (by norm_num)
example : pyFloat "abc" = none := by decide
example : pyFloat "-1" = some (-1) := by simp [pyFloat, digitsToNat, digitVal]
example : pyFloat "110" = some 110 := by simp [pyFloat, digitsToNat, digitVal]
example : normalizeSymbol "btc/usdt" = "BTCUSDT" := by decide
example : checkQuantity "0.01" = .ok (1 / 100) := by
  simp [checkQuantity, pyFloat, digitsToNat, digitVal]; norm_num
example :
    validate_input "btc/usdt" "sell" "stop_limit" "0.01" (some "100") (some "110") =
      .ok (⟨"BTCUSDT", "SELL", "STOP_LIMIT", 1 / 100, some 100, some 110⟩,
        ["Stop Price > Limit Price for a SELL order (may trigger immediately)."]) := by
  have hs : pyUpper "sell" = "SELL" := by decide
  have ht : pyUpper "stop_limit" = "STOP_LIMIT" := by decide
  simp [validate_input, checkQuantity, checkPrice, checkStop, pyFloat, digitsToNat,
    digitVal, normalizeSymbol, hs, ht]
  norm_num

lemma checkQuantity_ok_inv {quantity : String} {q : ℚ}
    (h : checkQuantity quantity = .ok q) : pyFloat quantity = some q ∧ 0 < q := by
  unfold checkQuantity at h
  cases hp : pyFloat quantity with
  | none => simp [hp] at h
  | some q2 =>
    simp only [hp] at h
    by_cases hle : q2 ≤ 0
    · simp [hle] at h
    · simp [hle] at h
      exact ⟨by rw [h], h ▸ lt_of_not_le hle⟩

lemma checkPrice_ok_inv {t : String} {price : Option String} {p : Option ℚ}
    (h : checkPrice t price = .ok p) :
    ((t = "LIMIT" ∨ t = "STOP_LIMIT") → ∃ v, p = some v ∧ 0 < v) ∧
    (¬ (t = "LIMIT" ∨ t = "STOP_LIMIT") → p = none) := by
  unfold checkPrice at h
  by_cases hc : t = "LIMIT" ∨ t = "STOP_LIMIT"
  · rw [if_pos hc] at h
    refine ⟨fun _ => ?_, fun hn => absurd hc hn⟩
    cases price with
    | none => simp at h
    | some ps =>
      simp only [] at h
      cases hp : pyFloat ps with
      | none => simp [hp] at h
      | some v =>
        simp only [hp] at h
        by_cases hle : v ≤ 0
        · simp [hle] at h
        · simp [hle] at h
          exact ⟨v, h.symm, lt_of_not_le hle⟩
  · rw [if_neg hc] at h
    simp at h
    exact ⟨fun hcc => absurd hcc hc, fun _ => h.symm⟩

lemma checkStop_ok_inv {su t : String} {p : Option ℚ} {stop : Option String}
    {sp : Option ℚ} {warns : List String}
    (h : checkStop su t p stop = .ok (sp, warns)) :
    (t = "STOP_LIMIT" → ∃ v, sp = some v ∧ 0 < v) ∧
    (t ≠ "STOP_LIMIT" → sp = none ∧ warns = []) := by
  unfold checkStop at h
  by_cases hc : t = "STOP_LIMIT"
  · rw [if_pos hc] at h
    refine ⟨fun _ => ?_, fun hn => absurd hc hn⟩
    cases stop with
    | none => simp at h
    | some sps =>
      simp only [] at h
      cases hp : pyFloat sps with
      | none => simp [hp] at h
      | some v =>
        simp only [hp] at h
        by_cases hle : v ≤ 0
        · simp [hle] at h
        · simp [hle] at h
          exact ⟨v, h.1.symm, lt_of_not_le hle⟩
  · rw [if_neg hc] at h
    simp at h
    exact ⟨fun hcc => absurd hcc hc, fun _ => ⟨h.1.symm, h.2⟩⟩

lemma validate_input_ok_shape {symbol side order_type quantity : String}
    {price stop_price : Option String} {r : OrderRequest} {w : List String}
    (h : validate_input symbol side order_type quantity price stop_price = .ok (r, w)) :
    ∃ q p sp, checkQuantity quantity = .ok q ∧
      checkPrice (pyUpper order_type) price = .ok p ∧
      checkStop (pyUpper side) (pyUpper order_type) p stop_price = .ok (sp, w) ∧
      r = ⟨normalizeSymbol symbol, pyUpper side, pyUpper order_type, q, p, sp⟩ := by
  unfold validate_input at h
  cases hq : checkQuantity quantity with
  | error e => simp [hq] at h
  | ok q =>
    simp only [hq] at h
    cases hp : checkPrice (pyUpper order_type) price with
    | error e => simp [hp] at h
    | ok p =>
      simp only [hp] at h
      cases hs : checkStop (pyUpper side) (pyUpper order_type) p stop_price with
      | error e => simp [hs] at h
      | ok spw =>
        obtain ⟨sp, warns⟩ := spw
        simp only [hs] at h
        simp at h
        exact ⟨q, p, sp, rfl, rfl, by rw [← h.2]; exact hs, h.1.symm⟩

lemma pyLeZero_false_pos_or_nan {v : PyNum} (h : pyLeZero v = false) :
    pyPos v ∨ v = .nan := by
  cases v with
  | num q =>
    left
    exact lt_of_not_le (by simpa [pyLeZero] using h)
  | nan => right; rfl

lemma checkPriceNan_ok_inv {t : String} {price : Option String} {p : Option PyNum}
    (h : checkPriceNan t price = .ok p) :
    ((t = "LIMIT" ∨ t = "STOP_LIMIT") → ∃ v, p = some v ∧ pyLeZero v = false) ∧
    (¬ (t = "LIMIT" ∨ t = "STOP_LIMIT") → p = none) := by
  unfold checkPriceNan at h
  by_cases hc : t = "LIMIT" ∨ t = "STOP_LIMIT"
  · rw [if_pos hc] at h
    refine ⟨fun _ => ?_, fun hn => absurd hc hn⟩
    cases price with
    | none => simp at h
    | some ps =>
      simp only [] at h
      cases hp : pyFloatNan ps with
      | none => simp [hp] at h
      | some v =>
        simp only [hp] at h
        by_cases hle : pyLeZero v = true
        · simp [hle] at h
        · have hle2 : pyLeZero v = false := eq_false_of_ne_true hle
          simp [hle2] at h
          exact ⟨v, h.symm, hle2⟩
  · rw [if_neg hc] at h
    simp at h
    exact ⟨fun hcc => absurd hcc hc, fun _ => h.symm⟩

lemma checkStopNan_ok_inv {su t : String} {p : Option PyNum} {stop : Option String}
    {sp : Option PyNum} {warns : List String}
    (h : checkStopNan su t p stop = .ok (sp, warns)) :
    (t = "STOP_LIMIT" → ∃ v, sp = some v ∧ pyLeZero v = false) ∧
    (t ≠ "STOP_LIMIT" → sp = none ∧ warns = []) := by
  unfold checkStopNan at h
  by_cases hc : t = "STOP_LIMIT"
  · rw [if_pos hc] at h
    refine ⟨fun _ => ?_, fun hn => absurd hc hn⟩
    cases stop with
    | none => simp at h
    | some sps =>
      simp only [] at h
      cases hp : pyFloatNan sps with
      | none => simp [hp] at h
      | some v =>
        simp only [hp] at h
        by_cases hle : pyLeZero v = true
        · simp [hle] at h
        · have hle2 : pyLeZero v = false := eq_false_of_ne_true hle
          simp [hle2] at h
          exact ⟨v, h.1.symm, hle2⟩
  · rw [if_neg hc] at h
    simp at h
    exact ⟨fun hcc => absurd hcc hc, fun _ => ⟨h.1.symm, h.2⟩⟩

lemma validate_input_nan_ok_shape {symbol side order_type quantity : String}
    {price stop_price : Option String} {r : OrderRequestNan} {w : List String}
    (h : validate_input_nan symbol side order_type quantity price stop_price = .ok (r, w)) :
    ∃ q p sp, checkQuantityNan quantity = .ok q ∧
      checkPriceNan (pyUpper order_type) price = .ok p ∧
      checkStopNan (pyUpper side) (pyUpper order_type) p stop_price = .ok (sp, w) ∧
      r = ⟨normalizeSymbol symbol, pyUpper side, pyUpper order_type, q, p, sp⟩ := by
  unfold validate_input_nan at h
  cases hq : checkQuantityNan quantity with
  | error e => simp [hq] at h
  | ok q =>
    simp only [hq] at h
    cases hp : checkPriceNan (pyUpper order_type) price with
    | error e => simp [hp] at h
    | ok p =>
      simp only [hp] at h
      cases hs : checkStopNan (pyUpper side) (pyUpper order_type) p stop_price with
      | error e => simp [hs] at h
      | ok spw =>
        obtain ⟨sp, warns⟩ := spw
        simp only [hs] at h
        simp at h
        exact ⟨q, p, sp, rfl, rfl, by rw [← h.2]; exact hs, h.1.symm⟩

/-- Claim C3, counterexample: on the NaN-aware model of `float()`, the
input (BTCUSDT, BUY, LIMIT, quantity "1", price "nan") validates
successfully — `float("nan")` parses and `nan <= 0` is False in Python — so
the returned request has a present price that is not a strictly positive
number, refuting "when present, both are strictly positive". -/
theorem validate_input_request_invariant_counterexample :
    validate_input_nan "BTCUSDT" "BUY" "LIMIT" "1" (some "nan") none =
      .ok (⟨"BTCUSDT", "BUY", "LIMIT", .num 1, some .nan, none⟩, []) ∧
    (some PyNum.nan).isSome = true ∧ ¬ pyPos PyNum.nan :=
  ⟨by decide, rfl, fun h => h⟩

/-- Claim C3, amended. Every request returned by a successful validation
satisfies: a price is present exactly when the validated type is `LIMIT`
or `STOP_LIMIT`, and a stop price is present exactly when it is
`STOP_LIMIT`; every present value passed the code's non-positivity test,
i.e. it is a strictly positive number or NaN (which defeats the `<= 0`
check). -/
theorem validate_input_nan_request_invariant
    (symbol side order_type quantity : String) (price stop_price : Option String)
    (r : OrderRequestNan) (w : List String)
    (h : validate_input_nan symbol side order_type quantity price stop_price = .ok (r, w)) :
    (r.price.isSome ↔ (r.otype = "LIMIT" ∨ r.otype = "STOP_LIMIT")) ∧
    (r.stopPrice.isSome ↔ r.otype = "STOP_LIMIT") ∧
    (∀ v, r.price = some v → pyPos v ∨ v = .nan) ∧
    (∀ v, r.stopPrice = some v → pyPos v ∨ v = .nan) := by
  obtain ⟨q, p, sp, hq, hp, hs, rfl⟩ := validate_input_nan_ok_shape h
  obtain ⟨hp1, hp2⟩ := checkPriceNan_ok_inv hp
  obtain ⟨hs1, hs2⟩ := checkStopNan_ok_inv hs
  refine ⟨?_, ?_, ?_, ?_⟩
  · constructor
    · intro hsome
      by_contra hn
      rw [hp2 hn] at hsome
      simp at hsome
    · intro hc
      obtain ⟨v, hv, _⟩ := hp1 hc
      simp [hv]
  · constructor
    · intro hsome
      by_contra hn
      rw [(hs2 hn).1] at hsome
      simp at hsome
    · intro hc
      obtain ⟨v, hv, _⟩ := hs1 hc
      simp [hv]
  · intro pv hpv
    have hpv2 : p = some pv := hpv
    by_cases hc : (pyUpper order_type = "LIMIT" ∨ pyUpper order_type = "STOP_LIMIT")
    · obtain ⟨v, hv, hv0⟩ := hp1 hc
      rw [hpv2] at hv
      obtain rfl : pv = v := by simpa using hv
      exact pyLeZero_false_pos_or_nan hv0
    · rw [hp2 hc] at hpv2
      simp at hpv2
  · intro spv hspv
    have hspv2 : sp = some spv := hspv
    by_cases hc : pyUpper order_type = "STOP_LIMIT"
    · obtain ⟨v, hv, hv0⟩ := hs1 hc
      rw [hspv2] at hv
      obtain rfl : spv = v := by simpa using hv
      exact pyLeZero_false_pos_or_nan hv0
    · rw [(hs2 hc).1] at hspv2
      simp at hspv2

/-- Witness for C3 (amended): the invariant holds at the NaN input itself —
the LIMIT request validated from price "nan" has its present price
accounted for by the NaN disjunct. -/
theorem validate_input_nan_request_invariant_witness :
    let r : OrderRequestNan := ⟨"BTCUSDT", "BUY", "LIMIT", .num 1, some .nan, none⟩
    (r.price.isSome ↔ (r.otype = "LIMIT" ∨ r.otype = "STOP_LIMIT")) ∧
    (r.stopPrice.isSome ↔ r.otype = "STOP_LIMIT") ∧
    (∀ v, r.price = some v → pyPos v ∨ v = .nan) ∧
    (∀ v, r.stopPrice = some v → pyPos v ∨ v = .nan) :=
  validate_input_nan_request_invariant "BTCUSDT" "BUY" "LIMIT" "1" (some "nan") none
    ⟨"BTCUSDT", "BUY", "LIMIT", .num 1, some .nan, none⟩ [] (by decide)

/-- Claim C5. For a `STOP_LIMIT` order with valid quantity, price and stop
price, a SELL whose stop price exceeds the limit price (or a BUY whose stop
price is below it) still validates successfully: the cross-field comparison
only emits a warning and never causes a rejection. -/
theorem validate_input_stop_limit_cross_warns
    (symbol side order_type quantity ps sps : String) (q p sp : ℚ)
    (ht : pyUpper order_type = "STOP_LIMIT")
    (hq : pyFloat quantity = some q) (hq0 : 0 < q)
    (hp : pyFloat ps = some p) (hp0 : 0 < p)
    (hsp : pyFloat sps = some sp) (hsp0 : 0 < sp)
    (hcross : (pyUpper side = "SELL" ∧ p < sp) ∨ (pyUpper side = "BUY" ∧ sp < p)) :
    ∃ w, validate_input symbol side order_type quantity (some ps) (some sps) =
        .ok (⟨normalizeSymbol symbol, pyUpper side, "STOP_LIMIT", q, some p, some sp⟩, w) ∧
      w ≠ [] := by
  have hcq : checkQuantity quantity = .ok q := checkQuantity_ok hq hq0
  have hcp : checkPrice (pyUpper order_type) (some ps) = .ok (some p) := by
    simp [checkPrice, ht, hp, not_le.mpr hp0]
  rcases hcross with ⟨hside, hlt⟩ | ⟨hside, hlt⟩
  · have hcs : checkStop (pyUpper side) (pyUpper order_type) (some p) (some sps) =
        .ok (some sp, ["Stop Price > Limit Price for a SELL order (may trigger immediately)."]) := by
      simp [checkStop, ht, hsp, not_le.mpr hsp0, hside, hlt]
    rw [ht] at hcp hcs
    exact ⟨["Stop Price > Limit Price for a SELL order (may trigger immediately)."],
      by simp [validate_input, hcq, hcp, hcs, ht], by simp⟩
  · have hcs : checkStop (pyUpper side) (pyUpper order_type) (some p) (some sps) =
        .ok (some sp, ["Stop Price < Limit Price for a BUY order (may trigger immediately)."]) := by
      simp [checkStop, ht, hsp, not_le.mpr hsp0, hside, hlt, not_lt.mpr (le_of_lt hlt)]
    rw [ht] at hcp hcs
    exact ⟨["Stop Price < Limit Price for a BUY order (may trigger immediately)."],
      by simp [validate_input, hcq, hcp, hcs, ht], by simp⟩

/-- Witness for C5: `SELL STOP_LIMIT` with price 100 and stop price 110
validates successfully with a (nonempty) warning list. -/
theorem validate_input_stop_limit_cross_warns_witness :
    ∃ w, validate_input "btc/usdt" "sell" "stop_limit" "0.01" (some "100") (some "110") =
        .ok (⟨normalizeSymbol "btc/usdt", pyUpper "sell", "STOP_LIMIT", 1 / 100,
          some 100, some 110⟩, w) ∧
      w ≠ [] :=
  validate_input_stop_limit_cross_warns "btc/usdt" "sell" "stop_limit" "0.01" "100" "110"
    (1 / 100) 100 110 (by decide)
    (by simp [pyFloat, digitsToNat, digitVal]; norm_num) (by norm_num)
    (by simp [pyFloat, digitsToNat, digitVal]) (by norm_num)
    (by simp [pyFloat, digitsToNat, digitVal]) (by norm_num)
    (Or.inl ⟨by decide, by norm_num⟩)

/-- Claim C4. For every request produced by a successful validation, the order
client builds exactly the protocol parameter set of its type: MARKET sends
exactly `{symbol, side, type, quantity}`; LIMIT adds exactly
`{price, timeInForce = GTC}`; STOP_LIMIT adds exactly
`{price, stopPrice, timeInForce = GTC}`; no other key ever appears. -/
theorem place_order_params_exact
    (symbol side order_type quantity : String) (price stop_price : Option String)
    (r : OrderRequest) (w : List String) (ex : ExchangeBehavior)
    (h : validate_input symbol side order_type quantity price stop_price = .ok (r, w)) :
    (r.otype = "MARKET" →
      (place_market_order r.symbol r.side r.quantity ex).params =
        [("symbol", .str r.symbol), ("side", .str r.side),
         ("type", .str "MARKET"), ("quantity", .num r.quantity)]) ∧
    (r.otype = "LIMIT" → ∃ p, r.price = some p ∧
      (place_limit_order r.symbol r.side r.quantity r.price ex).params =
        [("symbol", .str r.symbol), ("side", .str r.side),
         ("type", .str "LIMIT"), ("quantity", .num r.quantity),
         ("price", .num p), ("timeInForce", .str "GTC")]) ∧
    (r.otype = "STOP_LIMIT" → ∃ p sp, r.price = some p ∧ r.stopPrice = some sp ∧
      (place_stop_limit_order r.symbol r.side r.quantity r.price r.stopPrice ex).params =
        [("symbol", .str r.symbol), ("side", .str r.side),
         ("type", .str "STOP_LIMIT"), ("quantity", .num r.quantity),
         ("price", .num p), ("stopPrice", .num sp), ("timeInForce", .str "GTC")]) := by
  obtain ⟨q, p, sp, hq, hp, hs, rfl⟩ := validate_input_ok_shape h
  obtain ⟨hp1, hp2⟩ := checkPrice_ok_inv hp
  obtain ⟨hs1, hs2⟩ := checkStop_ok_inv hs
  refine ⟨?_, ?_, ?_⟩
  · intro _
    cases ex <;> simp [place_market_order, place_order, placeOrderParams]
  · intro hL
    have hL2 : pyUpper order_type = "LIMIT" := hL
    obtain ⟨v, hv, hv0⟩ := hp1 (Or.inl hL2)
    refine ⟨v, hv, ?_⟩
    cases ex <;> simp [place_limit_order, place_order, placeOrderParams, hv, pnum, pstr]
  · intro hS
    have hS2 : pyUpper order_type = "STOP_LIMIT" := hS
    obtain ⟨v, hv, hv0⟩ := hp1 (Or.inr hS2)
    obtain ⟨vs, hvs, hvs0⟩ := hs1 hS2
    refine ⟨v, vs, hv, hvs, ?_⟩
    cases ex <;>
      simp [place_stop_limit_order, place_order, placeOrderParams, hv, hvs, pnum, pstr,
        truthy, ne_of_gt hv0, ne_of_gt hvs0]

/-- Witness for C4: the STOP_LIMIT request validated from price 100 and
stop price 110 is sent with exactly the seven STOP_LIMIT keys. -/
theorem place_order_params_exact_witness :
    let r : OrderRequest := ⟨"BTCUSDT", "SELL", "STOP_LIMIT", 1 / 100, some 100, some 110⟩
    r.otype = "STOP_LIMIT" ∧ ∃ p sp, r.price = some p ∧ r.stopPrice = some sp ∧
      (place_stop_limit_order r.symbol r.side r.quantity r.price r.stopPrice
        (.success [])).params =
        [("symbol", .str r.symbol), ("side", .str r.side),
         ("type", .str "STOP_LIMIT"), ("quantity", .num r.quantity),
         ("price", .num p), ("stopPrice", .num sp), ("timeInForce", .str "GTC")] :=
  ⟨rfl,
    (place_order_params_exact "btc/usdt" "sell" "stop_limit" "0.01"
      (some "100") (some "110")
      ⟨"BTCUSDT", "SELL", "STOP_LIMIT", 1 / 100, some 100, some 110⟩
      ["Stop Price > Limit Price for a SELL order (may trigger immediately)."]
      (.success [])
      (by
        have hs : pyUpper "sell" = "SELL" := by decide
        have ht : pyUpper "stop_limit" = "STOP_LIMIT" := by decide
        simp [validate_input, checkQuantity, checkPrice, checkStop, pyFloat, digitsToNat,
          digitVal, normalizeSymbol, hs, ht]
        norm_num)).2.2 rfl⟩

lemma charToUpper_ofNat_fixed {m : Nat} (h1 : 65 ≤ m) (h2 : m ≤ 90) :
    Char.toUpper (Char.ofNat m) = Char.ofNat m := by
  interval_cases m <;> decide

lemma charToUpper_idem (c : Char) : Char.toUpper (Char.toUpper c) = Char.toUpper c := by
  by_cases h : c.toNat ≥ 97 ∧ c.toNat ≤ 122
  · have hup : Char.toUpper c = Char.ofNat (c.toNat - 32) := by
      unfold Char.toUpper
      rw [if_pos h]
    rw [hup]
    exact charToUpper_ofNat_fixed (by omega) (by omega)
  · have hup : Char.toUpper c = c := by
      unfold Char.toUpper
      rw [if_neg h]
    rw [hup, hup]

lemma normalizeList_idem (l : List Char) :
    ((((l.map Char.toUpper).filter (fun c => c ≠ '/')).map Char.toUpper).filter
        (fun c => c ≠ '/')) =
      (l.map Char.toUpper).filter (fun c => c ≠ '/') := by
  induction l with
  | nil => rfl
  | cons c t ih =>
    by_cases h : Char.toUpper c = '/'
    · simp [h]
      simpa using ih
    · simp [h, charToUpper_idem]
      simpa using ih

/-- Claim C6. Symbol normalization (uppercase, then remove every `/`) is
idempotent, and `normalize("btc/usdt") = "BTCUSDT"`. -/
theorem normalizeSymbol_idempotent :
    (∀ x : String, normalizeSymbol (normalizeSymbol x) = normalizeSymbol x) ∧
    normalizeSymbol "btc/usdt" = "BTCUSDT" := by
  constructor
  · intro x
    unfold normalizeSymbol
    exact congrArg String.mk (normalizeList_idem x.data)
  · decide

lemma api_marker_ne_transport (code : Int) (msg emsg : String) :
    "FAILED (API Error): Code " ++ toString code ++ " | " ++ msg ≠
      "FAILED (Unknown Error): " ++ emsg := by
  intro h
  have hd := congrArg String.data h
  simp only [String.data_append, List.append_assoc] at hd
  have h9 := congrArg (List.take 9) hd
  rw [List.take_append_of_le_length (by decide),
    List.take_append_of_le_length (by decide)] at h9
  exact absurd h9 (by decide)

/-- Claim C1. When the exchange's order-creation call raises a structured API
error, `place_order` returns the failure marker `None` and prints the
API-rejection report carrying that code and message; a transport/unexpected
failure also returns `None` but prints the generic report, and the two
reports are distinguishable for every code, message and transport message. -/
theorem place_order_api_rejection_marker
    (symbol side order_type : String) (quantity : ℚ) (price : Option ℚ)
    (tif : Option String) (stop_price : Option ℚ) (code : Int) (msg : String) :
    (place_order symbol side order_type quantity price tif stop_price
        (.apiError code msg)).retval = none ∧
    (place_order symbol side order_type quantity price tif stop_price
        (.apiError code msg)).printed =
      ["FAILED (API Error): Code " ++ toString code ++ " | " ++ msg] ∧
    ∀ emsg : String,
      (place_order symbol side order_type quantity price tif stop_price
          (.transportError emsg)).retval = none ∧
      (place_order symbol side order_type quantity price tif stop_price
          (.transportError emsg)).printed = ["FAILED (Unknown Error): " ++ emsg] ∧
      (place_order symbol side order_type quantity price tif stop_price
          (.apiError code msg)).printed ≠
        (place_order symbol side order_type quantity price tif stop_price
            (.transportError emsg)).printed := by
  refine ⟨rfl, rfl, fun emsg => ⟨rfl, rfl, ?_⟩⟩
  simp only [place_order, List.cons.injEq, and_true, ne_eq]
  intro hl
  exact api_marker_ne_transport code msg emsg (by simpa using hl)

/-- Claim C7. Exit codes of `bot.py:main`: 1 on missing credentials, on a
failed client initialization, on an empty command line, and on a validation
rejection; 0 on every completed submission attempt — the exit code of a
completed run does not depend on what the exchange answered, so a reported
failed order still exits 0. -/
theorem main_run_exit_codes (env : Env) :
    ((¬ pystrTruthy env.api_key ∨ ¬ pystrTruthy env.api_secret) →
      (main_run env).exitCode = 1) ∧
    (pystrTruthy env.api_key → pystrTruthy env.api_secret → env.init_ok = false →
      (main_run env).exitCode = 1) ∧
    (pystrTruthy env.api_key → pystrTruthy env.api_secret → env.init_ok = true →
      env.no_args = true → (main_run env).exitCode = 1) ∧
    (∀ e : ValidationError, pystrTruthy env.api_key → pystrTruthy env.api_secret →
      env.init_ok = true → env.no_args = false →
      (env.args.side = "BUY" ∨ env.args.side = "SELL") →
      (env.args.order_type = "MARKET" ∨ env.args.order_type = "LIMIT" ∨
        env.args.order_type = "STOP_LIMIT") →
      validate_input env.args.symbol env.args.side env.args.order_type env.args.quantity
        env.args.price env.args.stop_price = .error e →
      (main_run env).exitCode = 1) ∧
    (∀ (r : OrderRequest) (w : List String), pystrTruthy env.api_key →
      pystrTruthy env.api_secret → env.init_ok = true → env.no_args = false →
      (env.args.side = "BUY" ∨ env.args.side = "SELL") →
      (env.args.order_type = "MARKET" ∨ env.args.order_type = "LIMIT" ∨
        env.args.order_type = "STOP_LIMIT") →
      validate_input env.args.symbol env.args.side env.args.order_type env.args.quantity
        env.args.price env.args.stop_price = .ok (r, w) →
      (main_run env).exitCode = 0) := by
  refine ⟨?_, ?_, ?_, ?_, ?_⟩
  · intro h
    rcases h with h | h <;> simp [main_run, h]
  · intro hk hs hi
    simp [main_run, hk, hs, hi]
  · intro hk hs hi hn
    simp [main_run, hk, hs, hi, hn]
  · intro e hk hs hi hn hside htype hv
    rcases hside with h1 | h1 <;> rcases htype with h2 | h2 | h2 <;>
      rw [h1, h2] at hv <;> simp [main_run, hk, hs, hi, hn, h1, h2, hv]
  · intro r w hk hs hi hn hside htype hv
    rcases hside with h1 | h1 <;> rcases htype with h2 | h2 | h2 <;>
      rw [h1, h2] at hv <;> simp [main_run, hk, hs, hi, hn, h1, h2, hv]

/-- Witness for C7: with credentials set and a working client, a MARKET
order whose submission the exchange rejects with API code -2019 still exits
with code 0; with the API key unset the process exits with code 1. -/
theorem main_run_exit_codes_witness :
    (main_run ⟨some "k", some "s", true, false,
        ⟨"BTCUSDT", "BUY", "MARKET", "1", none, none⟩,
        .apiError (-2019) "Margin is insufficient."⟩).exitCode = 0 ∧
    (main_run ⟨none, some "s", true, false,
        ⟨"BTCUSDT", "BUY", "MARKET", "1", none, none⟩,
        .success []⟩).exitCode = 1 :=
  ⟨(main_run_exit_codes ⟨some "k", some "s", true, false,
        ⟨"BTCUSDT", "BUY", "MARKET", "1", none, none⟩,
        .apiError (-2019) "Margin is insufficient."⟩).2.2.2.2
      ⟨"BTCUSDT", "BUY", "MARKET", (digitsToNat ['1'] : ℚ), none, none⟩ []
      (by decide) (by decide) rfl rfl (Or.inl rfl) (Or.inl rfl) (by decide),
    (main_run_exit_codes ⟨none, some "s", true, false,
        ⟨"BTCUSDT", "BUY", "MARKET", "1", none, none⟩,
        .success []⟩).1 (Or.inl (by decide))⟩

/-- Claim C8. Validation errors never reach the order client: in every run in
which `validate_input` returns a rejection, no order-placement operation is
invoked. -/
theorem main_run_rejection_never_reaches_client (env : Env) (e : ValidationError)
    (h : validate_input env.args.symbol env.args.side env.args.order_type env.args.quantity
      env.args.price env.args.stop_price = .error e) :
    (main_run env).orderCalls = 0 := by
  unfold main_run
  split
  · rfl
  · split
    · rfl
    · split
      · rfl
      · split
        · rfl
        · split
          · rfl
          · simp_all

/-- Witness for C8: with an unparseable quantity the run performs zero
order-placement calls. -/
theorem main_run_rejection_never_reaches_client_witness :
    (main_run ⟨some "k", some "s", true, false,
        ⟨"BTCUSDT", "BUY", "MARKET", "abc", none, none⟩, .success []⟩).orderCalls = 0 :=
  main_run_rejection_never_reaches_client
    ⟨some "k", some "s", true, false,
      ⟨"BTCUSDT", "BUY", "MARKET", "abc", none, none⟩, .success []⟩
    (.invalidQuantity "abc") (by decide)

/-- Claim C9. Whenever credentials are present, the order client performs
exactly one connectivity check, made at construction time; if that check
fails, construction fails, the process exits with code 1, and neither
validation nor submission is ever reached. -/
theorem main_run_init_connectivity (env : Env)
    (hk : pystrTruthy env.api_key = true) (hs : pystrTruthy env.api_secret = true) :
    (main_run env).connectivityChecks = 1 ∧
    (env.init_ok = false →
      (main_run env).exitCode = 1 ∧ (main_run env).validationRan = false ∧
        (main_run env).orderCalls = 0) := by
  constructor
  · simp only [main_run, hk, hs]
    simp only [not_true, or_self, if_false]
    split
    · rfl
    · split
      · rfl
      · split
        · rfl
        · split
          · rfl
          · rfl
  · intro hi
    simp [main_run, hk, hs, hi]

/-- Witness for C9: with credentials set but a failing connectivity check,
the run makes its one connectivity check, exits with code 1, and never
reaches validation or submission. -/
theorem main_run_init_connectivity_witness :
    (main_run ⟨some "k", some "s", false, false,
        ⟨"BTCUSDT", "BUY", "MARKET", "1", none, none⟩, .success []⟩).connectivityChecks = 1 ∧
    (main_run ⟨some "k", some "s", false, false,
        ⟨"BTCUSDT", "BUY", "MARKET", "1", none, none⟩, .success []⟩).exitCode = 1 :=
  ⟨(main_run_init_connectivity ⟨some "k", some "s", false, false,
      ⟨"BTCUSDT", "BUY", "MARKET", "1", none, none⟩, .success []⟩ (by decide) (by decide)).1,
    ((main_run_init_connectivity ⟨some "k", some "s", false, false,
      ⟨"BTCUSDT", "BUY", "MARKET", "1", none, none⟩, .success []⟩ (by decide) (by decide)).2
      rfl).1⟩
